import Mathlib

/-!
Verification of the allocation engine of `goal_budget_app.py`.

Money amounts are modelled as rationals (`ℚ`); calendar dates are modelled
as epoch-day ordinals (`ℤ`), with `daysFromCivil` converting a civil
`(year, month, day)` to its ordinal so that date subtraction in the source
(`(pd.to_datetime(a) - pd.to_datetime(b)).dt.days`) becomes integer
subtraction of ordinals.  `days_between_paychecks` is a natural number
(7, 14 or 30 in the source UI); the parameter is written `D` below.
-/

namespace GoalBudget

/-- Days-from-civil conversion (proleptic Gregorian, epoch 1970-01-01 = 0),
valid for years ≥ 1.  Used to turn the concrete dates appearing in the
scenarios into day ordinals, matching pandas' datetime day arithmetic. -/
def daysFromCivil (y m d : ℕ) : ℤ :=
  let y2 := if m ≤ 2 then y - 1 else y
  let era := y2 / 400
  let yoe := y2 % 400
  let mp := (m + 9) % 12
  let doy := (153 * mp + 2) / 5 + (d - 1)
  let doe := yoe * 365 + yoe / 4 - yoe / 100 + doy
  (era * 146097 + doe : ℤ) - 719468

/-- Fully normalized goal record, as produced by the normalization loop
(source lines 217-238) and the dataframe coercions (lines 297-300):
`name` a string, `target`/`saved_so_far` numeric, both dates present. -/
structure Goal where
  name : String
  target : ℚ
  created : ℤ
  deadline : ℤ
  saved_so_far : ℚ
deriving Repr, DecidableEq

/-- Source line 303, `df["days_until_deadline"]`: signed days from the
paycheck date to the deadline. -/
def days_until_deadline (g : Goal) (pay_date : ℤ) : ℤ :=
  g.deadline - pay_date

/-- Source line 306, `df["paychecks_left"]`:
`max(math.ceil(days_until_deadline / days_between_paychecks), 1)`. -/
def paychecks_left (g : Goal) (pay_date : ℤ) (D : ℕ) : ℤ :=
  max ⌈(days_until_deadline g pay_date : ℚ) / (D : ℚ)⌉ 1

/-- Source lines 309-311, `df["total_paychecks"]`:
`max(math.ceil(max(deadline - created, 0) / days_between_paychecks), 1)`;
the inner `max` is taken on the integer day count before the division. -/
def total_paychecks (g : Goal) (D : ℕ) : ℤ :=
  max ⌈((max (g.deadline - g.created) 0 : ℤ) : ℚ) / (D : ℚ)⌉ 1

/-- Source line 314, `df["paychecks_elapsed"]`:
`max(int(total_paychecks - paychecks_left), 0)` (the `int` cast is the
identity on the integer-valued column). -/
def paychecks_elapsed (g : Goal) (pay_date : ℤ) (D : ℕ) : ℤ :=
  max (total_paychecks g D - paychecks_left g pay_date D) 0

/-- Source line 317, `df["planned_per_paycheck"]`:
`target / total_paychecks if total_paychecks > 0 else 0.0`. -/
def planned_per_paycheck (g : Goal) (D : ℕ) : ℚ :=
  if 0 < total_paychecks g D then g.target / (total_paychecks g D : ℚ) else 0

/-- Source line 320, `df["auto_saved"]`:
`planned_per_paycheck * paychecks_elapsed`. -/
def auto_saved (g : Goal) (pay_date : ℤ) (D : ℕ) : ℚ :=
  planned_per_paycheck g D * (paychecks_elapsed g pay_date D : ℚ)

/-- Source lines 323-325, `df["effective_saved"]`:
`saved_so_far if (saved_so_far is not None and saved_so_far > 0) else
auto_saved`; after the numeric coercion of line 300 the column is never
`None`, so the condition is `saved_so_far > 0`. -/
def effective_saved (g : Goal) (pay_date : ℤ) (D : ℕ) : ℚ :=
  if 0 < g.saved_so_far then g.saved_so_far else auto_saved g pay_date D

/-- Source line 328, `df["remaining"]`: `max(target - effective_saved, 0.0)`. -/
def remaining (g : Goal) (pay_date : ℤ) (D : ℕ) : ℚ :=
  max (g.target - effective_saved g pay_date D) 0

/-- Source lines 329-331, `df["per_paycheck"]`:
`remaining / paychecks_left if paychecks_left > 0 else remaining`. -/
def per_paycheck (g : Goal) (pay_date : ℤ) (D : ℕ) : ℚ :=
  if 0 < paychecks_left g pay_date D then
    remaining g pay_date D / (paychecks_left g pay_date D : ℚ)
  else
    remaining g pay_date D

/-- Source line 334: `total_allocations = df["per_paycheck"].sum()`. -/
def total_allocations (goals : List Goal) (pay_date : ℤ) (D : ℕ) : ℚ :=
  (goals.map (fun g => per_paycheck g pay_date D)).sum

/-- Source line 335: `leftover = max(paycheck - total_allocations, 0.0)`. -/
def leftover (goals : List Goal) (paycheck : ℚ) (pay_date : ℤ) (D : ℕ) : ℚ :=
  max (paycheck - total_allocations goals pay_date D) 0

/-- Per-goal row of the allocation result (the derived df columns). -/
structure AllocRow where
  name : String
  days_until_deadline : ℤ
  paychecks_left : ℤ
  total_paychecks : ℤ
  paychecks_elapsed : ℤ
  planned_per_paycheck : ℚ
  auto_saved : ℚ
  effective_saved : ℚ
  remaining : ℚ
  per_paycheck : ℚ
deriving Repr, DecidableEq

/-- All derived columns of one goal's row (source lines 302-331). -/
def allocRow (g : Goal) (pay_date : ℤ) (D : ℕ) : AllocRow :=
  { name := g.name
    days_until_deadline := days_until_deadline g pay_date
    paychecks_left := paychecks_left g pay_date D
    total_paychecks := total_paychecks g D
    paychecks_elapsed := paychecks_elapsed g pay_date D
    planned_per_paycheck := planned_per_paycheck g D
    auto_saved := auto_saved g pay_date D
    effective_saved := effective_saved g pay_date D
    remaining := remaining g pay_date D
    per_paycheck := per_paycheck g pay_date D }

/-- Full observable output of one run of the allocation computation
(source lines 295-335): the per-goal rows, `total_allocations`, `leftover`. -/
def engineOutput (goals : List Goal) (paycheck : ℚ) (pay_date : ℤ) (D : ℕ) :
    List AllocRow × ℚ × ℚ :=
  (goals.map (fun g => allocRow g pay_date D),
   total_allocations goals pay_date D,
   leftover goals paycheck pay_date D)

/-- Source line 21: `total_money = paycheck + additional_income`. -/
def total_money (paycheck additional_income : ℚ) : ℚ :=
  paycheck + additional_income

/-- One run of the app's computation with both income inputs (source
lines 18-21 and 199): `total_money` is computed from `additional_income`
but, as in the source, never read by the allocation pipeline, which uses
only `paycheck` (line 335). -/
def appRun (goals : List Goal) (paycheck additional_income : ℚ)
    (pay_date : ℤ) (D : ℕ) : List AllocRow × ℚ × ℚ :=
  let _tm := total_money paycheck additional_income
  engineOutput goals paycheck pay_date D

/-- Stored goal record handed to the write-back (source lines 390-402):
the normalized fields plus whatever other keys the original dict carried
(`updated = orig.copy()` preserves them). -/
structure StoredGoal where
  name : String
  target : ℚ
  created : ℤ
  deadline : ℤ
  saved_so_far : ℚ
  extras : List (String × String)
deriving Repr, DecidableEq

/-- View of a stored record as the engine's normalized goal. -/
def StoredGoal.toGoal (s : StoredGoal) : Goal :=
  { name := s.name
    target := s.target
    created := s.created
    deadline := s.deadline
    saved_so_far := s.saved_so_far }

/-- Source lines 390-402: `updated = orig.copy()`, then `name`, `target`,
`deadline`, `created` are taken from the df row (which, for a normalized
record, holds exactly the record's own values — the coercions of lines
297-300 are the identity there), and `saved_so_far` is set to
`float(row["effective_saved"])`. -/
def write_back (s : StoredGoal) (pay_date : ℤ) (D : ℕ) : StoredGoal :=
  { name := s.name
    target := s.target
    deadline := s.deadline
    created := s.created
    saved_so_far := effective_saved s.toGoal pay_date D
    extras := s.extras }

/-- Raw numeric field before normalization: absent, non-numeric (which
`pd.to_numeric(errors="coerce")` turns into NaN and `fillna(0.0)` into 0),
or an actual number. -/
inductive RawNum where
  | missing
  | invalid
  | val (q : ℚ)
deriving Repr, DecidableEq

/-- Raw date field before normalization: absent or falsy, a date object,
an ISO string that parses to a date, or an unparsable string (for which
`datetime.date.fromisoformat` raises and the `except` branch substitutes
today). -/
inductive RawDate where
  | missing
  | dateObj (d : ℤ)
  | isoStr (d : ℤ)
  | badStr
deriving Repr, DecidableEq

/-- Raw goal record as handed to the normalization loop (source
lines 217-238): any field may be missing or malformed. -/
structure RawGoal where
  name : Option String
  target : RawNum
  deadline : RawDate
  created : RawDate
  saved_so_far : RawNum
deriving Repr, DecidableEq

/-- Name normalization (source lines 218-219): missing name becomes the
placeholder `"Unnamed Goal"`. -/
def normName : Option String → String
  | none => "Unnamed Goal"
  | some s => s

/-- Numeric-field normalization (source lines 220-221 and 237-238 give 0.0
for a missing field; lines 299-300 coerce non-numeric values to NaN and
fill with 0.0). -/
def normNum : RawNum → ℚ
  | RawNum.missing => 0
  | RawNum.invalid => 0
  | RawNum.val q => q

/-- Date-field normalization (source lines 222-236): missing or falsy
dates become today; string dates are parsed, and a parse failure is
caught and replaced by today. -/
def normDate (today : ℤ) : RawDate → ℤ
  | RawDate.missing => today
  | RawDate.dateObj d => d
  | RawDate.isoStr d => d
  | RawDate.badStr => today

/-- Whole-record normalization (source lines 217-238): a total function —
no malformed field raises or drops the goal. -/
def normalize_goal (today : ℤ) (r : RawGoal) : Goal :=
  { name := normName r.name
    target := normNum r.target
    deadline := normDate today r.deadline
    created := normDate today r.created
    saved_so_far := normNum r.saved_so_far }

/-- Goal of Scenario B: target 1200, created 2024-01-01, deadline
2024-01-29, saved_so_far 0. -/
def scenarioB_goal : Goal :=
  { name := "g"
    target := 1200
    created := daysFromCivil 2024 1 1
    deadline := daysFromCivil 2024 1 29
    saved_so_far := 0 }

/-- Pay date of Scenario B: 2024-01-15. -/
def scenarioB_pay_date : ℤ := daysFromCivil 2024 1 15


/-! ### Helper lemmas shared by the claim theorems -/

theorem one_le_paychecks_left (g : Goal) (pay_date : ℤ) (D : ℕ) :
    1 ≤ paychecks_left g pay_date D := by
  unfold paychecks_left
  exact le_max_right _ _

theorem one_le_total_paychecks (g : Goal) (D : ℕ) :
    1 ≤ total_paychecks g D := by
  unfold total_paychecks
  exact le_max_right _ _

theorem paychecks_left_pos (g : Goal) (pay_date : ℤ) (D : ℕ) :
    0 < paychecks_left g pay_date D :=
  lt_of_lt_of_le zero_lt_one (one_le_paychecks_left g pay_date D)

theorem total_paychecks_pos (g : Goal) (D : ℕ) :
    0 < total_paychecks g D :=
  lt_of_lt_of_le zero_lt_one (one_le_total_paychecks g D)

theorem paychecks_elapsed_nonneg (g : Goal) (pay_date : ℤ) (D : ℕ) :
    0 ≤ paychecks_elapsed g pay_date D := by
  unfold paychecks_elapsed
  exact le_max_right _ _

theorem remaining_nonneg (g : Goal) (pay_date : ℤ) (D : ℕ) :
    0 ≤ remaining g pay_date D := by
  unfold remaining
  exact le_max_right _ _

theorem per_paycheck_eq_div (g : Goal) (pay_date : ℤ) (D : ℕ) :
    per_paycheck g pay_date D
      = remaining g pay_date D / (paychecks_left g pay_date D : ℚ) := by
  unfold per_paycheck
  rw [if_pos (paychecks_left_pos g pay_date D)]

theorem planned_eq_div (g : Goal) (D : ℕ) :
    planned_per_paycheck g D = g.target / (total_paychecks g D : ℚ) := by
  unfold planned_per_paycheck
  rw [if_pos (total_paychecks_pos g D)]

theorem per_paycheck_nonneg (g : Goal) (pay_date : ℤ) (D : ℕ) :
    0 ≤ per_paycheck g pay_date D := by
  rw [per_paycheck_eq_div]
  apply div_nonneg (remaining_nonneg g pay_date D)
  exact_mod_cast (paychecks_left_pos g pay_date D).le

/-! ### Claim theorems -/

/-- C1: for every goal, `effective_saved` equals `saved_so_far` exactly when
`saved_so_far > 0`, and equals `auto_saved` (which is
`planned_per_paycheck * paychecks_elapsed`) when `saved_so_far` is 0; a
nonzero user-entered value is never overridden by the auto-inference model. -/
theorem effective_saved_override (g : Goal) (pay_date : ℤ) (D : ℕ) :
    (0 < g.saved_so_far → effective_saved g pay_date D = g.saved_so_far) ∧
    (g.saved_so_far = 0 →
      effective_saved g pay_date D = auto_saved g pay_date D) ∧
    auto_saved g pay_date D
      = planned_per_paycheck g D * (paychecks_elapsed g pay_date D : ℚ) := by
  refine ⟨fun h => ?_, fun h => ?_, rfl⟩
  · unfold effective_saved
    rw [if_pos h]
  · unfold effective_saved
    rw [if_neg (by rw [h]; exact lt_irrefl 0)]

/-- Witness for C1 at concrete goals: one with a user-entered
`saved_so_far = 50`, one with `saved_so_far = 0`. -/
theorem effective_saved_override_witness :
    effective_saved ⟨"a", 100, 0, 28, 50⟩ 0 14 = (50 : ℚ) ∧
    effective_saved ⟨"b", 100, 0, 28, 0⟩ 0 14
      = auto_saved ⟨"b", 100, 0, 28, 0⟩ 0 14 :=
  ⟨(effective_saved_override ⟨"a", 100, 0, 28, 50⟩ 0 14).1 (by norm_num),
   (effective_saved_override ⟨"b", 100, 0, 28, 0⟩ 0 14).2.1 rfl⟩

/-- C2 (Scenario B): for the goal with target 1200, created 2024-01-01,
deadline 2024-01-29, saved_so_far 0, with 14 days between paychecks and
pay date 2024-01-15, the engine computes days_until_deadline = 14,
paychecks_left = 1, total_paychecks = 2, paychecks_elapsed = 1,
planned_per_paycheck = 600, auto_saved = 600, effective_saved = 600,
remaining = 600, per_paycheck = 600. -/
theorem scenarioB_values :
    days_until_deadline scenarioB_goal scenarioB_pay_date = 14 ∧
    paychecks_left scenarioB_goal scenarioB_pay_date 14 = 1 ∧
    total_paychecks scenarioB_goal 14 = 2 ∧
    paychecks_elapsed scenarioB_goal scenarioB_pay_date 14 = 1 ∧
    planned_per_paycheck scenarioB_goal 14 = 600 ∧
    auto_saved scenarioB_goal scenarioB_pay_date 14 = 600 ∧
    effective_saved scenarioB_goal scenarioB_pay_date 14 = 600 ∧
    remaining scenarioB_goal scenarioB_pay_date 14 = 600 ∧
    per_paycheck scenarioB_goal scenarioB_pay_date 14 = 600 := by
  have hdays : days_until_deadline scenarioB_goal scenarioB_pay_date = 14 := by
    decide
  have hleft : paychecks_left scenarioB_goal scenarioB_pay_date 14 = 1 := by
    unfold paychecks_left
    rw [hdays]
    norm_num
  have hcr : max (scenarioB_goal.deadline - scenarioB_goal.created) 0 = 28 := by
    decide
  have htot : total_paychecks scenarioB_goal 14 = 2 := by
    unfold total_paychecks
    rw [hcr]
    norm_num
  have hel : paychecks_elapsed scenarioB_goal scenarioB_pay_date 14 = 1 := by
    unfold paychecks_elapsed
    rw [htot, hleft]
    decide
  have hplan : planned_per_paycheck scenarioB_goal 14 = 600 := by
    unfold planned_per_paycheck
    rw [htot]
    norm_num [scenarioB_goal]
  have hauto : auto_saved scenarioB_goal scenarioB_pay_date 14 = 600 := by
    unfold auto_saved
    rw [hplan, hel]
    norm_num
  have heff : effective_saved scenarioB_goal scenarioB_pay_date 14 = 600 := by
    unfold effective_saved
    rw [if_neg (by norm_num [scenarioB_goal])]
    exact hauto
  have hrem : remaining scenarioB_goal scenarioB_pay_date 14 = 600 := by
    unfold remaining
    rw [heff, show scenarioB_goal.target - (600 : ℚ) = 600 by
      norm_num [scenarioB_goal]]
    exact max_eq_left (by norm_num)
  have hper : per_paycheck scenarioB_goal scenarioB_pay_date 14 = 600 := by
    unfold per_paycheck
    rw [if_pos (by rw [hleft]; norm_num), hrem, hleft]
    norm_num
  exact ⟨hdays, hleft, htot, hel, hplan, hauto, heff, hrem, hper⟩

/-- C3: for every goal and all input dates (including a deadline earlier
than the pay date and a creation date later than the deadline),
`paychecks_left ≥ 1`, `total_paychecks ≥ 1`, and `paychecks_elapsed` is
never negative. -/
theorem schedule_floors (g : Goal) (pay_date : ℤ) (D : ℕ) :
    1 ≤ paychecks_left g pay_date D ∧ 1 ≤ total_paychecks g D ∧
    0 ≤ paychecks_elapsed g pay_date D :=
  ⟨one_le_paychecks_left g pay_date D, one_le_total_paychecks g D,
   paychecks_elapsed_nonneg g pay_date D⟩

/-- C4: for every goal, `remaining = max(target - effective_saved, 0)`, so
`remaining ≥ 0` and `per_paycheck ≥ 0`; when `saved_so_far = 1500` exceeds
`target = 1200`, both `remaining` and `per_paycheck` are 0 — the overshoot
is never reported as a negative amount. -/
theorem remaining_clamped (g : Goal) (pay_date : ℤ) (D : ℕ) :
    remaining g pay_date D = max (g.target - effective_saved g pay_date D) 0 ∧
    0 ≤ remaining g pay_date D ∧
    0 ≤ per_paycheck g pay_date D ∧
    (g.target = 1200 → g.saved_so_far = 1500 →
      remaining g pay_date D = 0 ∧ per_paycheck g pay_date D = 0) := by
  refine ⟨rfl, remaining_nonneg g pay_date D, per_paycheck_nonneg g pay_date D,
    fun ht hs => ?_⟩
  have he : effective_saved g pay_date D = 1500 := by
    unfold effective_saved
    rw [if_pos (by rw [hs]; norm_num), hs]
  have hr : remaining g pay_date D = 0 := by
    unfold remaining
    rw [he, ht, show (1200 : ℚ) - 1500 = -300 by norm_num]
    exact max_eq_right (by norm_num)
  exact ⟨hr, by rw [per_paycheck_eq_div, hr, zero_div]⟩

/-- Witness for C4 at the overshoot goal of Scenario C
(target 1200, saved_so_far 1500). -/
theorem remaining_clamped_witness :
    remaining ⟨"c", 1200, 0, 28, 1500⟩ 0 14 = 0 ∧
    per_paycheck ⟨"c", 1200, 0, 28, 1500⟩ 0 14 = 0 :=
  (remaining_clamped ⟨"c", 1200, 0, 28, 1500⟩ 0 14).2.2.2 rfl rfl

/-- C5: for every goal set and paycheck amount, `total_allocations` is the
sum of `per_paycheck` over all goals and
`leftover = max(paycheck - total_allocations, 0)`; `leftover` is never
negative, and when the allocations reach or exceed the paycheck it is
exactly 0. -/
theorem leftover_clamped (goals : List Goal) (paycheck : ℚ) (pay_date : ℤ)
    (D : ℕ) :
    total_allocations goals pay_date D
      = (goals.map (fun g => per_paycheck g pay_date D)).sum ∧
    leftover goals paycheck pay_date D
      = max (paycheck - total_allocations goals pay_date D) 0 ∧
    0 ≤ leftover goals paycheck pay_date D ∧
    (paycheck ≤ total_allocations goals pay_date D →
      leftover goals paycheck pay_date D = 0) := by
  refine ⟨rfl, rfl, ?_, fun h => ?_⟩
  · unfold leftover
    exact le_max_right _ _
  · unfold leftover
    exact max_eq_right (by linarith)

/-- Witness for C5 at the empty goal set with a zero paycheck. -/
theorem leftover_clamped_witness : leftover [] 0 0 14 = 0 :=
  (leftover_clamped [] 0 0 14).2.2.2 (by simp [total_allocations])

/-- C6: the zero-denominator fallback branches are unreachable — for every
goal, `total_paychecks > 0` and `paychecks_left > 0`, so
`planned_per_paycheck` is always `target / total_paychecks` and
`per_paycheck` is always `remaining / paychecks_left`; the else-branches
returning 0 resp. `remaining` are never taken. -/
theorem fallback_unreachable (g : Goal) (pay_date : ℤ) (D : ℕ) :
    0 < total_paychecks g D ∧ 0 < paychecks_left g pay_date D ∧
    planned_per_paycheck g D = g.target / (total_paychecks g D : ℚ) ∧
    per_paycheck g pay_date D
      = remaining g pay_date D / (paychecks_left g pay_date D : ℚ) :=
  ⟨total_paychecks_pos g D, paychecks_left_pos g pay_date D,
   planned_eq_div g D, per_paycheck_eq_div g pay_date D⟩

/-- C7: normalization never raises — it is a total function, and a missing
name becomes the placeholder, a missing or invalid target becomes 0, a
missing saved_so_far becomes 0, and a missing or unparsable deadline or
created date becomes today's date. -/
theorem normalization_never_raises (today : ℤ) (r : RawGoal) :
    (r.name = none → (normalize_goal today r).name = "Unnamed Goal") ∧
    ((r.target = RawNum.missing ∨ r.target = RawNum.invalid) →
      (normalize_goal today r).target = 0) ∧
    (r.saved_so_far = RawNum.missing →
      (normalize_goal today r).saved_so_far = 0) ∧
    ((r.deadline = RawDate.missing ∨ r.deadline = RawDate.badStr) →
      (normalize_goal today r).deadline = today) ∧
    ((r.created = RawDate.missing ∨ r.created = RawDate.badStr) →
      (normalize_goal today r).created = today) := by
  refine ⟨fun h => ?_, fun h => ?_, fun h => ?_, fun h => ?_, fun h => ?_⟩
  · simp [normalize_goal, normName, h]
  · rcases h with h | h <;> simp [normalize_goal, normNum, h]
  · simp [normalize_goal, normNum, h]
  · rcases h with h | h <;> simp [normalize_goal, normDate, h]
  · rcases h with h | h <;> simp [normalize_goal, normDate, h]

/-- Witness for C7 at a record with every field missing or malformed
(deadline an unparsable string), normalized with today = 0. -/
theorem normalization_never_raises_witness :
    (normalize_goal 0 ⟨none, RawNum.missing, RawDate.badStr, RawDate.missing,
      RawNum.missing⟩).name = "Unnamed Goal" ∧
    (normalize_goal 0 ⟨none, RawNum.missing, RawDate.badStr, RawDate.missing,
      RawNum.missing⟩).target = 0 ∧
    (normalize_goal 0 ⟨none, RawNum.missing, RawDate.badStr, RawDate.missing,
      RawNum.missing⟩).saved_so_far = 0 ∧
    (normalize_goal 0 ⟨none, RawNum.missing, RawDate.badStr, RawDate.missing,
      RawNum.missing⟩).deadline = 0 ∧
    (normalize_goal 0 ⟨none, RawNum.missing, RawDate.badStr, RawDate.missing,
      RawNum.missing⟩).created = 0 := by
  have h := normalization_never_raises 0
    ⟨none, RawNum.missing, RawDate.badStr, RawDate.missing, RawNum.missing⟩
  exact ⟨h.1 rfl, h.2.1 (Or.inl rfl), h.2.2.1 rfl, h.2.2.2.1 (Or.inr rfl),
    h.2.2.2.2 (Or.inl rfl)⟩

/-- C8: the allocation computation is deterministic — two invocations with
identical inputs produce identical per-goal rows, total_allocations and
leftover. -/
theorem engine_deterministic (goals₁ goals₂ : List Goal) (p₁ p₂ : ℚ)
    (d₁ d₂ : ℤ) (D₁ D₂ : ℕ) (hg : goals₁ = goals₂) (hp : p₁ = p₂)
    (hd : d₁ = d₂) (hD : D₁ = D₂) :
    engineOutput goals₁ p₁ d₁ D₁ = engineOutput goals₂ p₂ d₂ D₂ := by
  rw [hg, hp, hd, hD]

/-- Witness for C8: two runs on the Scenario B input agree. -/
theorem engine_deterministic_witness :
    engineOutput [scenarioB_goal] 100 scenarioB_pay_date 14
      = engineOutput [scenarioB_goal] 100 scenarioB_pay_date 14 :=
  engine_deterministic [scenarioB_goal] [scenarioB_goal] 100 100
    scenarioB_pay_date scenarioB_pay_date 14 14 rfl rfl rfl rfl

/-- C9: frame condition of the write-back — only `saved_so_far` changes
(set to the recomputed `effective_saved`); name, target, deadline, created
and all other keys of the original record are carried through unchanged. -/
theorem write_back_frame (s : StoredGoal) (pay_date : ℤ) (D : ℕ) :
    (write_back s pay_date D).name = s.name ∧
    (write_back s pay_date D).target = s.target ∧
    (write_back s pay_date D).deadline = s.deadline ∧
    (write_back s pay_date D).created = s.created ∧
    (write_back s pay_date D).extras = s.extras ∧
    (write_back s pay_date D).saved_so_far
      = effective_saved s.toGoal pay_date D :=
  ⟨rfl, rfl, rfl, rfl, rfl, rfl⟩

/-- C10: `additional_income` has no effect on any allocation output — two
runs differing only in `additional_income` produce identical per-goal rows,
total_allocations and leftover, and leftover is computed from the paycheck
amount alone. -/
theorem additional_income_no_effect (goals : List Goal) (paycheck a₁ a₂ : ℚ)
    (pay_date : ℤ) (D : ℕ) :
    appRun goals paycheck a₁ pay_date D = appRun goals paycheck a₂ pay_date D ∧
    leftover goals paycheck pay_date D
      = max (paycheck - total_allocations goals pay_date D) 0 :=
  ⟨rfl, rfl⟩

end GoalBudget
